import Mathlib

/-!
Verification of the loan-underwriting pipeline's pure decision logic,
shallowly embedded from the Python source:
  backend/classes/agents/bedrock_agent.py  (assessment agents + supervisor)
  backend/activities.py                    (credit-fetch activities)
  backend/classes/agents/mcp_tools.py      (validate_credit_score_tool)
  mcp_server/server.py                     (validate_credit_score branch of call_tool)
  backend/main.py                          (review-submission endpoint; the workflow's
                                            review gate itself is modelled from the spec,
                                            since workflows.py is not in the sources)

Python numbers are modelled as rationals; JSON score values that may be
missing or non-numeric are modelled by an explicit small value type.
Each non-deterministic LLM call (`self.invoke(prompt)`) is modelled as an
explicit String parameter carrying the model's response; everything the
code computes from the structured inputs is embedded as written.
-/

namespace LoanUnderwriter

/-- A JSON value as far as the credit-score validation cares: a number,
a non-numeric value (string), or null.  `isinstance(score, (int, float))`
holds exactly for `num`. -/
inductive JsonVal where
  | num (q : ℚ)
  | str (s : String)
  | null
deriving DecidableEq, Repr

/-- Holds exactly when `isinstance(score, (int, float))` holds. -/
def JsonVal.isNumeric : JsonVal → Bool
  | .num _ => true
  | _ => false

/-- Numeric value of a JSON value; only consulted when `isNumeric`
(Python's `or` short-circuits before comparing a non-number). -/
def JsonVal.toQ : JsonVal → ℚ
  | .num q => q
  | _ => 0

/-- The inbound loan application (`LoanApplication` in main.py, passed to the
agents as a dict).  `none` models an absent key, so `application.get(k, 0)`
becomes `getD 0`. -/
structure Application where
  applicant_id : String
  name : String
  amount : Option ℚ
  income : Option ℚ
  expenses : Option ℚ
deriving DecidableEq, Repr

/-- Python's `round` to an integer: nearest integer, ties to even. -/
def roundHalfEven (q : ℚ) : ℤ :=
  let f : ℤ := ⌊q⌋
  let frac : ℚ := q - f
  if frac < 1/2 then f
  else if frac > 1/2 then f + 1
  else if f % 2 = 0 then f else f + 1

/-- Python's `round(x, 2)`: round to two decimal places, ties to even. -/
def round2 (q : ℚ) : ℚ := (roundHalfEven (q * 100) : ℚ) / 100

/-! ## CreditAssessmentAgent._determine_risk_level (bedrock_agent.py 216-225) -/

/-- Embeds `CreditAssessmentAgent._determine_risk_level`. -/
def determine_risk_level (score : ℚ) : String :=
  if score ≥ 750 then "low"
  else if score ≥ 650 then "medium"
  else if score ≥ 620 then "medium-high"
  else "high"

/-! ## IncomeAssessmentAgent.assess_income (bedrock_agent.py 254-295) -/

/-- The dict returned by `IncomeAssessmentAgent.assess_income`. -/
structure IncomeAssessmentResult where
  income : ℚ
  loan_amount : ℚ
  annual_income : ℚ
  income_to_loan_ratio : ℚ
  affordability_ok : Bool
  assessment : String
deriving DecidableEq, Repr

/-- Embeds `IncomeAssessmentAgent.assess_income`.  The `bank_data` and
`credit_data` arguments of the source feed only the LLM prompt; the LLM's
reply (`assessment = self.invoke(prompt)`) is the `assessmentText`
parameter.  The numeric logic is embedded as written:
`income_ratio = annual_income / amount if amount > 0 else 0` and
`affordability_ok = income_ratio >= 2.5`. -/
def assess_income (application : Application) (assessmentText : String) :
    IncomeAssessmentResult :=
  let income := application.income.getD 0
  let amount := application.amount.getD 0
  let annual_income := income * 12
  let income_ratio := if amount > 0 then annual_income / amount else 0
  { income := income
    loan_amount := amount
    annual_income := annual_income
    income_to_loan_ratio := round2 income_ratio
    affordability_ok := decide (income_ratio ≥ 5/2)
    assessment := assessmentText }

/-! ## ExpenseAssessmentAgent.assess_expenses (bedrock_agent.py 322-350) -/

/-- The dict returned by `ExpenseAssessmentAgent.assess_expenses`. -/
structure ExpenseAssessmentResult where
  monthly_income : ℚ
  monthly_expenses : ℚ
  disposable_income : ℚ
  affordability_ok : Bool
  assessment : String
deriving DecidableEq, Repr

/-- Embeds `ExpenseAssessmentAgent.assess_expenses`.  `bank_data` feeds only
the LLM prompt; the LLM reply is the `assessmentText` parameter.
`disposable = income - expenses`, `affordability_ok = disposable > 0`. -/
def assess_expenses (application : Application) (assessmentText : String) :
    ExpenseAssessmentResult :=
  let income := application.income.getD 0
  let expenses := application.expenses.getD 0
  let disposable := income - expenses
  { monthly_income := income
    monthly_expenses := expenses
    disposable_income := disposable
    affordability_ok := decide (disposable > 0)
    assessment := assessmentText }

/-! ## SupervisorAgent.aggregate_and_decide (bedrock_agent.py 384-436) -/

/-- The dict returned by `CreditAssessmentAgent.assess_credit`, as consumed
by the supervisor (`risk_level` is what `aggregate_and_decide` reads). -/
structure CreditAssessmentResult where
  credit_score : Option JsonVal
  risk_level : String
  assessment : String
  provider : String
deriving DecidableEq, Repr

/-- The dict returned by `SupervisorAgent.aggregate_and_decide`. -/
structure SuggestedDecision where
  decision : String
  confidence : String
  reasoning : String
  credit_risk : String
  income_adequate : Bool
  expenses_manageable : Bool
deriving DecidableEq, Repr

/-- Embeds `SupervisorAgent.aggregate_and_decide`.  `application` and
`documents` feed only the LLM prompt; `decisionText` is the LLM's reply
(`decision_text = self.invoke(prompt)`), which the source stores verbatim
in the `reasoning` field.  The branch structure mirrors the source:
approve tested first, then reject, else review. -/
def aggregate_and_decide (application : Application)
    (income_assessment : IncomeAssessmentResult)
    (expense_assessment : ExpenseAssessmentResult)
    (credit_assessment : CreditAssessmentResult)
    (documents : List String)
    (decisionText : String) : SuggestedDecision :=
  let credit_ok := ["low", "medium"].contains credit_assessment.risk_level
  let income_ok := income_assessment.affordability_ok
  let expense_ok := expense_assessment.affordability_ok
  let dc : String × String :=
    if credit_ok && income_ok && expense_ok then ("approve", "high")
    else if !credit_ok || !income_ok then ("reject", "high")
    else ("review", "medium")
  { decision := dc.1
    confidence := dc.2
    reasoning := decisionText
    credit_risk := credit_assessment.risk_level
    income_adequate := income_ok
    expenses_manageable := expense_ok }

/-- The spec's ordered decision rule, written from the spec's words
(§4.1 AGGREGATING: (a) reject, (b) approve, (c) review, in that order)
for comparison with the code's `aggregate_and_decide`. -/
def specDecisionRule (riskLevel : String) (incomeOk expenseOk : Bool) :
    String × String :=
  if !(["low", "medium"].contains riskLevel) || !incomeOk then ("reject", "high")
  else if (["low", "medium"].contains riskLevel) && incomeOk && expenseOk then
    ("approve", "high")
  else ("review", "medium")

/-! ## Credit-fetch activities (activities.py 114-194) -/

/-- The parsed JSON body of a bureau's HTTP response; only the `score`
field matters to validation (`none` models an absent key). -/
structure BureauResponse where
  score : Option JsonVal
deriving DecidableEq, Repr

/-- The credit record an activity returns on success: the bureau response
plus the provider metadata the activity adds. -/
structure CreditRecord where
  score : Option JsonVal
  provider : String
  data_quality : String
deriving DecidableEq, Repr

/-- A Temporal `ApplicationError` as the activities raise it: the error
`type` tag and the `non_retryable` flag. -/
structure AppError where
  etype : String
  nonRetryable : Bool
deriving DecidableEq, Repr

/-- Embeds `fetch_credit_report_cibil` from the end of the HTTP call on:
`none` input models a failed HTTP fetch (exception before validation).
The score check is the source's
`not isinstance(score, (int, float)) or score < 300 or score > 850`,
where `score = credit_data.get("score", 0)`; any exception is caught and
re-raised as `ApplicationError(type="CibilAPIError", non_retryable=False)`. -/
def fetch_credit_report_cibil (httpResult : Option BureauResponse) :
    Except AppError CreditRecord :=
  match httpResult with
  | none => .error { etype := "CibilAPIError", nonRetryable := false }
  | some resp =>
    let score := resp.score.getD (JsonVal.num 0)
    if score.isNumeric = false ∨ score.toQ < 300 ∨ score.toQ > 850 then
      .error { etype := "CibilAPIError", nonRetryable := false }
    else
      .ok { score := resp.score, provider := "CIBIL", data_quality := "validated" }

/-- Embeds `fetch_credit_report_experian`, identical to the CIBIL activity
except for the provider tag and the error type. -/
def fetch_credit_report_experian (httpResult : Option BureauResponse) :
    Except AppError CreditRecord :=
  match httpResult with
  | none => .error { etype := "ExperianAPIError", nonRetryable := false }
  | some resp =>
    let score := resp.score.getD (JsonVal.num 0)
    if score.isNumeric = false ∨ score.toQ < 300 ∨ score.toQ > 850 then
      .error { etype := "ExperianAPIError", nonRetryable := false }
    else
      .ok { score := resp.score, provider := "Experian", data_quality := "validated" }

/-! ## validate_credit_score (mcp_tools.py 89-111 and mcp_server/server.py 173-191) -/

/-- The result dict of the `validate_credit_score` tool. -/
structure ScoreValidation where
  score : ℚ
  minimum_required : ℚ
  is_valid : Bool
  risk_level : String
  recommendation : String
deriving DecidableEq, Repr

/-- Embeds `validate_credit_score_tool` (mcp_tools.py).  The source defaults
`minimum_required` to 620; callers here pass it explicitly. -/
def validate_credit_score_tool (score : ℚ) (minimum_required : ℚ) :
    ScoreValidation :=
  let is_valid := decide (score ≥ minimum_required)
  let risk_level :=
    if score ≥ 750 then "low" else if score ≥ 650 then "medium" else "high"
  { score := score
    minimum_required := minimum_required
    is_valid := is_valid
    risk_level := risk_level
    recommendation := if is_valid then "approve" else "reject" }

/-- Embeds the `validate_credit_score` branch of `call_tool`
(mcp_server/server.py); `arguments.get("minimum_required", 620)` is the
`minimum_required` parameter. -/
def call_tool_validate_credit_score (score : ℚ) (minimum_required : ℚ) :
    ScoreValidation :=
  let is_valid := decide (score ≥ minimum_required)
  let risk_level :=
    if score ≥ 750 then "low" else if score ≥ 650 then "medium" else "high"
  { score := score
    minimum_required := minimum_required
    is_valid := is_valid
    risk_level := risk_level
    recommendation := if is_valid then "approve" else "reject" }

/-! ## Review gate -/

/-- A human review decision (`ReviewRequest` in main.py). -/
structure ReviewOutcome where
  action : String
  note : String
deriving DecidableEq, Repr

/-- The review-gate state of one workflow handle. -/
inductive ReviewState where
  | awaiting
  | signaled (outcome : ReviewOutcome)
  | finalized (outcome : ReviewOutcome)
deriving DecidableEq, Repr

/-- Modelled from the spec: the `SupervisorWorkflow` review gate.  The
workflow definition (workflows.py, imported by worker.py) is not among the
sources; only its caller — the `/workflow/{id}/review` endpoint in main.py,
which forwards the signal unconditionally — is.  Per §6 (`submit_review`
delivers exactly one ReviewOutcome; a second call against an
already-finalized or already-signaled handle is rejected) and §7
(misuse "is rejected with a distinct \x22already resolved\x22 error"). -/
def submit_review : ReviewState → ReviewOutcome → Except String ReviewState
  | .awaiting, o => .ok (.signaled o)
  | .signaled _, _ => .error "already resolved"
  | .finalized _, _ => .error "already resolved"

/-- The state of the handle after a submission attempt: a rejected
submission leaves the handle's state as it was. -/
def apply_submit (s : ReviewState) (o : ReviewOutcome) : ReviewState :=
  match submit_review s o with
  | .ok s2 => s2
  | .error _ => s

/-- The outcome recorded on the handle, if any. -/
def recordedOutcome : ReviewState → Option ReviewOutcome
  | .awaiting => none
  | .signaled o => some o
  | .finalized o => some o

/-! ## Concrete fixtures (spec §8 end-to-end scenarios) -/

/-- Spec §8 scenario A: amount 100000, income 10000, expenses 3000. -/
def scenarioA : Application :=
  { applicant_id := "A1", name := "Applicant A", amount := some 100000,
    income := some 10000, expenses := some 3000 }

/-- Spec §8 scenario B: same application but income 50000. -/
def scenarioB : Application :=
  { applicant_id := "A1", name := "Applicant A", amount := some 100000,
    income := some 50000, expenses := some 3000 }

/-- An application with no requested amount. -/
def scenarioNoAmount : Application :=
  { applicant_id := "Z1", name := "Applicant Z", amount := none,
    income := some 10000, expenses := some 0 }

/-- A bureau response whose score 900 lies outside [300, 850]. -/
def badScoreResp : BureauResponse := { score := some (JsonVal.num 900) }

/-- A bureau response with no score field at all. -/
def missingScoreResp : BureauResponse := { score := none }

/-- A bureau response with a valid score of 700. -/
def goodResp : BureauResponse := { score := some (JsonVal.num 700) }

/-! ## Claims -/

/-- Rounding an integer value changes nothing. -/
theorem roundHalfEven_intCast (n : ℤ) : roundHalfEven (n : ℚ) = n := by
  unfold roundHalfEven
  rw [Int.floor_intCast]
  norm_num

/-- C1: for every assessment triple (credit risk level, income affordability,
expense affordability), the (decision, confidence) pair computed by
`aggregate_and_decide` equals the spec's ordered rule (reject first, then
approve, else review), and the rule is total: it always yields one of
(reject, high), (approve, high), (review, medium). -/
theorem C1_aggregation_matches_spec_rule (app : Application)
    (inc : IncomeAssessmentResult) (expa : ExpenseAssessmentResult)
    (cred : CreditAssessmentResult) (docs : List String) (t : String) :
    ((aggregate_and_decide app inc expa cred docs t).decision,
      (aggregate_and_decide app inc expa cred docs t).confidence)
      = specDecisionRule cred.risk_level inc.affordability_ok expa.affordability_ok ∧
    specDecisionRule cred.risk_level inc.affordability_ok expa.affordability_ok
      ∈ [("reject", "high"), ("approve", "high"), ("review", "medium")] := by
  unfold aggregate_and_decide specDecisionRule
  cases h : List.contains ["low", "medium"] cred.risk_level <;>
    cases hi : inc.affordability_ok <;>
    cases he : expa.affordability_ok <;>
    simp [h, hi, he]

/-- C2: the credit-assessment risk classification follows the 620/650/750
thresholds exactly: at least 750 is "low", [650, 750) is "medium",
[620, 650) is "medium-high", and below 620 (including 619) is "high". -/
theorem C2_risk_level_thresholds (s : ℚ) :
    (750 ≤ s → determine_risk_level s = "low") ∧
    (650 ≤ s → s < 750 → determine_risk_level s = "medium") ∧
    (620 ≤ s → s < 650 → determine_risk_level s = "medium-high") ∧
    (s < 620 → determine_risk_level s = "high") := by
  unfold determine_risk_level
  refine ⟨?_, ?_, ?_, ?_⟩ <;> intros <;> split_ifs <;> first | rfl | linarith

/-- Witness for C2 at the boundary scores 750, 700, 620 and 619. -/
theorem C2_risk_level_thresholds_witness :
    ((750 : ℚ) ≤ 750 ∧ determine_risk_level 750 = "low") ∧
    ((650 : ℚ) ≤ 700 ∧ (700 : ℚ) < 750 ∧ determine_risk_level 700 = "medium") ∧
    ((620 : ℚ) ≤ 620 ∧ (620 : ℚ) < 650 ∧ determine_risk_level 620 = "medium-high") ∧
    ((619 : ℚ) < 620 ∧ determine_risk_level 619 = "high") :=
  ⟨⟨by norm_num, (C2_risk_level_thresholds 750).1 (by norm_num)⟩,
   ⟨by norm_num, by norm_num,
     (C2_risk_level_thresholds 700).2.1 (by norm_num) (by norm_num)⟩,
   ⟨by norm_num, by norm_num,
     (C2_risk_level_thresholds 620).2.2.1 (by norm_num) (by norm_num)⟩,
   ⟨by norm_num, (C2_risk_level_thresholds 619).2.2.2 (by norm_num)⟩⟩

/-- C6: whenever the requested amount is positive, the income assessment's
ratio is (monthly income * 12) / amount (reported rounded to two decimal
places) and affordability_ok holds iff that ratio is at least 2.5; in
particular scenario A (income 10000, amount 100000) yields ratio 1.2 = 6/5
and affordability_ok = false. -/
theorem C6_income_ratio_and_affordability :
    (∀ (app : Application) (t : String), 0 < app.amount.getD 0 →
      (assess_income app t).income_to_loan_ratio
          = round2 (app.income.getD 0 * 12 / app.amount.getD 0) ∧
      ((assess_income app t).affordability_ok = true ↔
        5/2 ≤ app.income.getD 0 * 12 / app.amount.getD 0)) ∧
    (assess_income scenarioA "").income_to_loan_ratio = 6/5 ∧
    (assess_income scenarioA "").affordability_ok = false := by
  refine ⟨fun app t h => ?_, ?_, ?_⟩
  · have h2 : app.amount.getD 0 > 0 := h
    constructor
    · simp [assess_income, if_pos h2]
    · simp [assess_income, if_pos h2, ge_iff_le]
  · have h120 : roundHalfEven (120 : ℚ) = 120 := by
      have h := roundHalfEven_intCast 120
      norm_num at h
      exact h
    have harg : (10000 * 12 / 100000 : ℚ) * 100 = 120 := by norm_num
    simp [assess_income, scenarioA, round2, harg, h120]
    norm_num
  · simp [assess_income, scenarioA, decide_eq_false_iff_not]
    norm_num

/-- Witness for C6 at scenario A. -/
theorem C6_income_ratio_and_affordability_witness :
    0 < scenarioA.amount.getD 0 ∧
    ((assess_income scenarioA "").income_to_loan_ratio
        = round2 (scenarioA.income.getD 0 * 12 / scenarioA.amount.getD 0) ∧
      ((assess_income scenarioA "").affordability_ok = true ↔
        5/2 ≤ scenarioA.income.getD 0 * 12 / scenarioA.amount.getD 0)) :=
  ⟨by decide, C6_income_ratio_and_affordability.1 scenarioA "" (by decide)⟩

/-- C7: the expense assessment's disposable income is monthly income minus
monthly expenses, and affordability_ok holds iff disposable income is
strictly positive; in particular income 50000 with expenses 3000 gives
disposable 47000 and affordability_ok = true. -/
theorem C7_expense_disposable_and_affordability :
    (∀ (app : Application) (t : String),
      (assess_expenses app t).disposable_income
          = app.income.getD 0 - app.expenses.getD 0 ∧
      ((assess_expenses app t).affordability_ok = true ↔
        0 < app.income.getD 0 - app.expenses.getD 0)) ∧
    (assess_expenses scenarioB "").disposable_income = 47000 ∧
    (assess_expenses scenarioB "").affordability_ok = true := by
  refine ⟨fun app t => ⟨rfl, ?_⟩, ?_, ?_⟩
  · simp [assess_expenses]
  · simp [assess_expenses, scenarioB]
    norm_num
  · simp [assess_expenses, scenarioB, decide_eq_true_eq]
    norm_num

/-- C9: when the requested amount is zero, negative, or absent, the income
assessment's guarded division never fires: the reported ratio is 0 and
affordability_ok is false. -/
theorem C9_no_division_when_amount_not_positive (app : Application)
    (t : String) (h : ¬ 0 < app.amount.getD 0) :
    (assess_income app t).income_to_loan_ratio = 0 ∧
    (assess_income app t).affordability_ok = false := by
  have h2 : ¬ app.amount.getD 0 > 0 := h
  constructor
  · simp [assess_income, if_neg h2, round2, roundHalfEven]
  · simp [assess_income, if_neg h2]

/-- Witness for C9 at an application with no amount field. -/
theorem C9_no_division_witness :
    ¬ 0 < scenarioNoAmount.amount.getD 0 ∧
    ((assess_income scenarioNoAmount "").income_to_loan_ratio = 0 ∧
      (assess_income scenarioNoAmount "").affordability_ok = false) :=
  ⟨by decide, C9_no_division_when_amount_not_positive scenarioNoAmount "" (by decide)⟩

/-- C3 counterexample: a bureau response with score 900 (outside [300, 850])
makes both fetch activities fail, but the raised ApplicationError carries
non_retryable = False — the validation failure is retryable, contrary to the
claim that it immediately exhausts the activity's retry budget. -/
theorem C3_counterexample :
    fetch_credit_report_cibil (some badScoreResp)
      = Except.error { etype := "CibilAPIError", nonRetryable := false } ∧
    fetch_credit_report_experian (some badScoreResp)
      = Except.error { etype := "ExperianAPIError", nonRetryable := false } := by
  constructor <;>
  · simp [fetch_credit_report_cibil, fetch_credit_report_experian, badScoreResp,
      JsonVal.isNumeric, JsonVal.toQ]
    norm_num

/-- C3 amended: whenever the bureau response's score is non-numeric or lies
outside [300, 850], each credit-fetch activity fails — no credit record
reaches the orchestrator — but the failure is raised as an ApplicationError
with non_retryable = False, so it consumes retry attempts like a transient
failure instead of immediately exhausting the budget. -/
theorem C3_invalid_score_fails_but_retryable (resp : BureauResponse)
    (h : (resp.score.getD (JsonVal.num 0)).isNumeric = false ∨
      (resp.score.getD (JsonVal.num 0)).toQ < 300 ∨
      (resp.score.getD (JsonVal.num 0)).toQ > 850) :
    fetch_credit_report_cibil (some resp)
      = Except.error { etype := "CibilAPIError", nonRetryable := false } ∧
    fetch_credit_report_experian (some resp)
      = Except.error { etype := "ExperianAPIError", nonRetryable := false } := by
  constructor <;>
  · simp only [fetch_credit_report_cibil, fetch_credit_report_experian]
    rw [if_pos h]

/-- Witness for the amended C3 at the score-900 response. -/
theorem C3_invalid_score_fails_but_retryable_witness :
    ((badScoreResp.score.getD (JsonVal.num 0)).isNumeric = false ∨
      (badScoreResp.score.getD (JsonVal.num 0)).toQ < 300 ∨
      (badScoreResp.score.getD (JsonVal.num 0)).toQ > 850) ∧
    (fetch_credit_report_cibil (some badScoreResp)
        = Except.error { etype := "CibilAPIError", nonRetryable := false } ∧
      fetch_credit_report_experian (some badScoreResp)
        = Except.error { etype := "ExperianAPIError", nonRetryable := false }) :=
  ⟨by right; right; decide,
   C3_invalid_score_fails_but_retryable badScoreResp (by right; right; decide)⟩

/-- C10: a bureau response that lacks the score field entirely is treated as
score 0, which is outside [300, 850], so both fetch activities fail on it;
consequently every successfully returned credit record carries an explicit
numeric score within [300, 850]. -/
theorem C10_missing_score_fails_success_in_range :
    (∀ resp : BureauResponse, resp.score = none →
      fetch_credit_report_cibil (some resp)
          = Except.error { etype := "CibilAPIError", nonRetryable := false } ∧
      fetch_credit_report_experian (some resp)
          = Except.error { etype := "ExperianAPIError", nonRetryable := false }) ∧
    (∀ (httpResult : Option BureauResponse) (rec : CreditRecord),
      fetch_credit_report_cibil httpResult = Except.ok rec →
      ∃ q : ℚ, rec.score = some (JsonVal.num q) ∧ 300 ≤ q ∧ q ≤ 850) ∧
    (∀ (httpResult : Option BureauResponse) (rec : CreditRecord),
      fetch_credit_report_experian httpResult = Except.ok rec →
      ∃ q : ℚ, rec.score = some (JsonVal.num q) ∧ 300 ≤ q ∧ q ≤ 850) := by
  refine ⟨fun resp h => ?_, fun httpResult rec h => ?_, fun httpResult rec h => ?_⟩
  · constructor <;>
      simp [fetch_credit_report_cibil, fetch_credit_report_experian, h,
        JsonVal.isNumeric, JsonVal.toQ]
  all_goals
    rcases httpResult with _ | resp
    · exact absurd h
        (by simp [fetch_credit_report_cibil, fetch_credit_report_experian])
    · simp only [fetch_credit_report_cibil, fetch_credit_report_experian] at h
      split at h
      · exact absurd h (by simp)
      · rename ¬ _ => hc
        push_neg at hc
        obtain ⟨h1, h2, h3⟩ := hc
        simp only [Except.ok.injEq] at h
        rcases hs : resp.score with _ | v
        · rw [hs] at h2
          norm_num [JsonVal.toQ] at h2
        · rw [hs] at h1 h2 h3 h
          rcases v with q | s2 | _
          · refine ⟨q, ?_, by simpa [JsonVal.toQ] using h2,
              by simpa [JsonVal.toQ] using h3⟩
            rw [← h]
          · simp [JsonVal.isNumeric] at h1
          · simp [JsonVal.isNumeric] at h1

/-- Witness for C10: the missing-score response fails on both bureaus, and a
successful fetch of a score-700 response yields a record whose score is in
range. -/
theorem C10_missing_score_witness :
    (missingScoreResp.score = none ∧
      (fetch_credit_report_cibil (some missingScoreResp)
          = Except.error { etype := "CibilAPIError", nonRetryable := false } ∧
        fetch_credit_report_experian (some missingScoreResp)
          = Except.error { etype := "ExperianAPIError", nonRetryable := false })) ∧
    (fetch_credit_report_cibil (some goodResp)
        = Except.ok { score := some (JsonVal.num 700), provider := "CIBIL",
                      data_quality := "validated" } ∧
      ∃ q : ℚ,
        ({ score := some (JsonVal.num 700), provider := "CIBIL",
           data_quality := "validated" } : CreditRecord).score
            = some (JsonVal.num q) ∧ 300 ≤ q ∧ q ≤ 850) := by
  have hok : fetch_credit_report_cibil (some goodResp)
      = Except.ok { score := some (JsonVal.num 700), provider := "CIBIL",
                    data_quality := "validated" } := by
    simp [fetch_credit_report_cibil, goodResp, JsonVal.isNumeric, JsonVal.toQ]
    norm_num
  exact ⟨⟨rfl, C10_missing_score_fails_success_in_range.1 missingScoreResp rfl⟩,
    ⟨hok, C10_missing_score_fails_success_in_range.2.1 (some goodResp) _ hok⟩⟩

/-- C4 counterexample: two runs of aggregate_and_decide on identical
application, assessment and document inputs, differing only in the external
LLM reply (`decision_text = self.invoke(prompt)`, a non-deterministic
Bedrock call at temperature 0.2), produce different SuggestedDecision
records: the reasoning field differs. -/
theorem C4_counterexample :
    aggregate_and_decide scenarioB (assess_income scenarioB "income rationale")
        (assess_expenses scenarioB "expense rationale")
        { credit_score := some (JsonVal.num 780),
          risk_level := determine_risk_level 780,
          assessment := "credit rationale", provider := "CIBIL" }
        [] "first run rationale"
      ≠ aggregate_and_decide scenarioB (assess_income scenarioB "income rationale")
        (assess_expenses scenarioB "expense rationale")
        { credit_score := some (JsonVal.num 780),
          risk_level := determine_risk_level 780,
          assessment := "credit rationale", provider := "CIBIL" }
        [] "second run rationale" := by
  intro h
  have hr := congrArg SuggestedDecision.reasoning h
  exact absurd hr (by decide)

/-- C4 amended: aggregate_and_decide is deterministic in every field it
computes from the structured inputs — decision, confidence, credit_risk,
income_adequate and expenses_manageable agree across any two runs on
identical application, assessment and document inputs — while the reasoning
field merely stores the external LLM reply verbatim and so tracks whatever
that call returned. -/
theorem C4_deterministic_except_llm_reasoning (app : Application)
    (inc : IncomeAssessmentResult) (expa : ExpenseAssessmentResult)
    (cred : CreditAssessmentResult) (docs : List String) (t1 t2 : String) :
    (aggregate_and_decide app inc expa cred docs t1).decision
        = (aggregate_and_decide app inc expa cred docs t2).decision ∧
    (aggregate_and_decide app inc expa cred docs t1).confidence
        = (aggregate_and_decide app inc expa cred docs t2).confidence ∧
    (aggregate_and_decide app inc expa cred docs t1).credit_risk
        = (aggregate_and_decide app inc expa cred docs t2).credit_risk ∧
    (aggregate_and_decide app inc expa cred docs t1).income_adequate
        = (aggregate_and_decide app inc expa cred docs t2).income_adequate ∧
    (aggregate_and_decide app inc expa cred docs t1).expenses_manageable
        = (aggregate_and_decide app inc expa cred docs t2).expenses_manageable ∧
    (aggregate_and_decide app inc expa cred docs t1).reasoning = t1 :=
  ⟨rfl, rfl, rfl, rfl, rfl, rfl⟩

/-- C5: against the review gate modelled from the spec, a submission on a
fresh handle is accepted and delivers its outcome; a submission against an
already-signaled or already-finalized handle is rejected with the distinct
"already resolved" error and leaves the recorded outcome unchanged. -/
theorem C5_review_accepted_at_most_once (o1 o2 : ReviewOutcome)
    (s : ReviewState) (h : s ≠ ReviewState.awaiting) :
    submit_review ReviewState.awaiting o1
        = Except.ok (ReviewState.signaled o1) ∧
    submit_review s o2 = Except.error "already resolved" ∧
    apply_submit s o2 = s ∧
    recordedOutcome (apply_submit s o2) = recordedOutcome s := by
  refine ⟨rfl, ?_, ?_, ?_⟩ <;>
    cases s <;>
    first
      | exact absurd rfl h
      | rfl

/-- Witness for C5: approve is delivered once; a second submission against
the signaled handle is rejected and changes nothing. -/
theorem C5_review_accepted_at_most_once_witness :
    ReviewState.signaled { action := "approve", note := "" }
        ≠ ReviewState.awaiting ∧
    (submit_review ReviewState.awaiting { action := "approve", note := "" }
        = Except.ok (ReviewState.signaled { action := "approve", note := "" }) ∧
      submit_review (ReviewState.signaled { action := "approve", note := "" })
          { action := "reject", note := "second try" }
        = Except.error "already resolved" ∧
      apply_submit (ReviewState.signaled { action := "approve", note := "" })
          { action := "reject", note := "second try" }
        = ReviewState.signaled { action := "approve", note := "" } ∧
      recordedOutcome (apply_submit
          (ReviewState.signaled { action := "approve", note := "" })
          { action := "reject", note := "second try" })
        = recordedOutcome
            (ReviewState.signaled { action := "approve", note := "" })) :=
  ⟨by decide,
   C5_review_accepted_at_most_once { action := "approve", note := "" }
     { action := "reject", note := "second try" }
     (ReviewState.signaled { action := "approve", note := "" }) (by decide)⟩

/-- C8 counterexample: at score 620 both validate_credit_score tools return
"high" while CreditAssessmentAgent._determine_risk_level returns
"medium-high" — the tools do not implement the medium-high band. -/
theorem C8_counterexample :
    (validate_credit_score_tool 620 620).risk_level = "high" ∧
    (call_tool_validate_credit_score 620 620).risk_level = "high" ∧
    determine_risk_level 620 = "medium-high" ∧
    (validate_credit_score_tool 620 620).risk_level
      ≠ determine_risk_level 620 := by
  decide

/-- C8 amended: the two validate_credit_score tools compute identical risk
levels, and they agree with _determine_risk_level everywhere except on
620 <= s < 650, where the tools return "high" but the agent returns
"medium-high" (the tools implement only the 650/750 thresholds). -/
theorem C8_tools_agree_except_medium_high_band (s : ℚ) :
    (validate_credit_score_tool s 620).risk_level
        = (call_tool_validate_credit_score s 620).risk_level ∧
    (s < 620 ∨ 650 ≤ s →
      (validate_credit_score_tool s 620).risk_level = determine_risk_level s) ∧
    (620 ≤ s → s < 650 →
      (validate_credit_score_tool s 620).risk_level = "high" ∧
        determine_risk_level s = "medium-high") := by
  refine ⟨rfl, fun h => ?_, fun h1 h2 => ?_⟩
  · simp only [validate_credit_score_tool, determine_risk_level]
    rcases h with h | h <;> split_ifs <;> first | rfl | linarith
  · simp only [validate_credit_score_tool, determine_risk_level]
    split_ifs <;> first | exact ⟨rfl, rfl⟩ | linarith

/-- Witness for the amended C8 at scores 700 (agreeing band) and 630
(the divergent medium-high band). -/
theorem C8_tools_agree_witness :
    ((validate_credit_score_tool 700 620).risk_level
        = (call_tool_validate_credit_score 700 620).risk_level) ∧
    ((700 : ℚ) < 620 ∨ (650 : ℚ) ≤ 700) ∧
    (validate_credit_score_tool 700 620).risk_level
        = determine_risk_level 700 ∧
    ((620 : ℚ) ≤ 630 ∧ (630 : ℚ) < 650) ∧
    ((validate_credit_score_tool 630 620).risk_level = "high" ∧
      determine_risk_level 630 = "medium-high") :=
  ⟨(C8_tools_agree_except_medium_high_band 700).1,
   by norm_num,
   (C8_tools_agree_except_medium_high_band 700).2.1 (by norm_num),
   by norm_num,
   (C8_tools_agree_except_medium_high_band 630).2.2 (by norm_num) (by norm_num)⟩

end LoanUnderwriter

